import Mathlib

/-!
Verification of `bibtex_to_html.py`: a shallow embedding of the script's data
model (bibtex entries as field mappings), its arXiv-identifier resolver, entry
selection, badge rendering, author formatting and per-entry HTML rendering,
together with theorems settling the specified properties.

Python strings are modelled as Lean `String` (a wrapper around `List Char`);
the Python string operations used by the script (`in`, `split(sep, 1)`,
`split(sep)`, `split()`, `strip()`, `replace`, `lower()`, `title()`) are
re-implemented below by structural recursion on the character list so that all
definitions evaluate inside the kernel.
-/

namespace BibtexToHtml

/-- Is `needle` a prefix of `haystack` (character-list version)? -/
def isPrefixOfChars : List Char → List Char → Bool
  | [], _ => true
  | _ :: _, [] => false
  | a :: as, b :: bs => a == b && isPrefixOfChars as bs

/-- The suffix of the haystack after the first occurrence of `needle`
(`none` when `needle` does not occur).  Models Python
`haystack.split(needle, 1)[1]` together with the `needle in haystack` test. -/
def dropAfterFirst (needle : List Char) : List Char → Option (List Char)
  | [] => if needle == ([] : List Char) then some [] else none
  | c :: cs =>
    if isPrefixOfChars needle (c :: cs) then some ((c :: cs).drop needle.length)
    else dropAfterFirst needle cs

/-- Python `sub in s` for strings. -/
def pyContains (sub s : String) : Bool :=
  (dropAfterFirst sub.data s.data).isSome

/-- Python `s.split(sub, 1)[1]` (everything after the first occurrence;
`""` when `sub` does not occur, a case the script always guards). -/
def pySplitAfter (sub s : String) : String :=
  String.mk ((dropAfterFirst sub.data s.data).getD [])

/-- Fuel-driven worker for `pyReplace`; fuel bounds the number of consumed
characters so the recursion is structural. -/
def replaceFuel (needle repl : List Char) : Nat → List Char → List Char
  | _, [] => []
  | 0, l => l
  | fuel + 1, c :: cs =>
    if needle.length > 0 && isPrefixOfChars needle (c :: cs) then
      repl ++ replaceFuel needle repl fuel (cs.drop (needle.length - 1))
    else c :: replaceFuel needle repl fuel cs

/-- Python `s.replace(needle, repl)` (all occurrences). -/
def pyReplace (s needle repl : String) : String :=
  String.mk (replaceFuel needle.data repl.data s.data.length s.data)

/-- Fuel-driven worker for `pySplitAll`. -/
def splitAllFuel (sep : List Char) : Nat → List Char → List (List Char)
  | _, [] => [[]]
  | 0, l => [l]
  | fuel + 1, c :: cs =>
    if sep.length > 0 && isPrefixOfChars sep (c :: cs) then
      [] :: splitAllFuel sep fuel (cs.drop (sep.length - 1))
    else
      match splitAllFuel sep fuel cs with
      | [] => [[c]]
      | p :: ps => (c :: p) :: ps

/-- Python `s.split(sep)` for a non-empty separator. -/
def pySplitAll (sep s : String) : List String :=
  (splitAllFuel sep.data s.data.length s.data).map String.mk

/-- Python `s.strip()`. -/
def pyStrip (s : String) : String :=
  String.mk (((s.data.dropWhile Char.isWhitespace).reverse.dropWhile
    Char.isWhitespace).reverse)

/-- Worker for `pySplitWS`: accumulates the current word reversed. -/
def wordsFuel (cur : List Char) : List Char → List (List Char)
  | [] => if cur.isEmpty then [] else [cur.reverse]
  | c :: cs =>
    if c.isWhitespace then
      if cur.isEmpty then wordsFuel [] cs else cur.reverse :: wordsFuel [] cs
    else wordsFuel (c :: cur) cs

/-- Python `s.split()` (split on whitespace runs, dropping empty pieces). -/
def pySplitWS (s : String) : List String :=
  (wordsFuel [] s.data).map String.mk

/-- Python `s.lower()` (ASCII-adequate model). -/
def pyLower (s : String) : String :=
  String.mk (s.data.map Char.toLower)

/-- Worker for `pyTitle`: the flag records whether the previous character was
alphabetic. -/
def titleFuel : Bool → List Char → List Char
  | _, [] => []
  | prevAlpha, c :: cs =>
    if c.isAlpha then
      (if prevAlpha then c.toLower else c.toUpper) :: titleFuel true cs
    else c :: titleFuel false cs

/-- Python `s.title()` (ASCII-adequate model). -/
def pyTitle (s : String) : String :=
  String.mk (titleFuel false s.data)

/-- Python `sep.join(parts)`. -/
def joinSep (sep : String) : List String → String
  | [] => ""
  | [x] => x
  | x :: xs => x ++ sep ++ joinSep sep xs

/-- A badge record: the keyword arguments handed to `format_badge`.  The
script requires at least `desc` and `url`; `left`, `right`, `color`, `logo`
and `logoColor` are the optional style overrides mentioned in the source
comments. -/
structure Badge where
  desc : Option String := none
  url : Option String := none
  left : Option String := none
  right : Option String := none
  color : Option String := none
  logo : Option String := none
  logoColor : Option String := none
deriving Repr, DecidableEq

/-- Number of keyword arguments present, Python `len(kwargs)`. -/
def Badge.nkwargs (b : Badge) : Nat :=
  [b.desc.isSome, b.url.isSome, b.left.isSome, b.right.isSome,
    b.color.isSome, b.logo.isSome, b.logoColor.isSome].count true

/-- One bibliography entry: a mapping from field name to string value,
restricted to the fields the script ever reads or writes.  `none` models a
key that is absent from the Python dict, `some ""` a present-but-empty value.
`ID` is present on every entry the script builds or loads. -/
structure Entry where
  ID : String
  author : Option String := none
  title : Option String := none
  url : Option String := none
  journal : Option String := none
  volume : Option String := none
  pages : Option String := none
  year : Option String := none
  abstract : Option String := none
  doi : Option String := none
  eprint : Option String := none
  eprinttype : Option String := none
  badges : Option (List Badge) := none
  arxiv_org_id : Option String := none
deriving Repr, DecidableEq

/-- The first branch of the resolver loop:
`"eprint" in entry and "eprinttype" in entry and entry["eprinttype"].lower() == "arxiv"`. -/
def hasArxivEprintPair (entry : Entry) : Bool :=
  match entry.eprint, entry.eprinttype with
  | some _, some t => pyLower t == "arxiv"
  | _, _ => false

/-- The doi branch test: `"doi" in entry and "arXiv." in entry["doi"]`. -/
def doiHasArxiv (entry : Entry) : Bool :=
  match entry.doi with
  | some d => pyContains "arXiv." d
  | none => false

/-- `find_arxiv_id_in_entry`, pure search part.  The Python body is a
run-once `while` loop: the eprint branch and the url branch `break`, the doi
branch does not, so a qualifying url overwrites a doi-derived identifier. -/
def find_arxiv_id (entry : Entry) : Option String :=
  if hasArxivEprintPair entry then entry.eprint
  else
    let fromDoi : Option String :=
      match entry.doi with
      | some d =>
        if pyContains "arXiv." d then some (pySplitAfter "arXiv." d) else none
      | none => none
    match entry.url with
    | some u =>
      if pyContains "arxiv.org/abs/" u then
        some (pySplitAfter "arxiv.org/abs/" u)
      else fromDoi
    | none => fromDoi

/-- `find_arxiv_id_in_entry(entry, add_to_entry=True)`: returns the found
identifier and the (possibly updated) entry, modelling the in-place write of
the `arxiv_org_id` field. -/
def find_arxiv_id_in_entry (entry : Entry) (add_to_entry : Bool := true) :
    Option String × Entry :=
  let arxiv_id := find_arxiv_id entry
  match arxiv_id, add_to_entry with
  | some v, true => (some v, { entry with arxiv_org_id := some v })
  | _, _ => (arxiv_id, entry)

/-- Updating `arxiv_org_id` does not change what the resolver finds: the
search only reads `eprint`, `eprinttype`, `doi` and `url`. -/
theorem find_arxiv_id_set_id (entry : Entry) (v : Option String) :
    find_arxiv_id { entry with arxiv_org_id := v } = find_arxiv_id entry := rfl

/-- Entry with an arxiv eprint pair and a conflicting doi, for C3. -/
def c3entry : Entry :=
  { ID := "c3", eprint := some "2010.00001", eprinttype := some "arXiv",
    doi := some "10.48550/arXiv.1111.2222" }

/-- C3: an entry carrying both an `eprint` value with `eprinttype`
case-insensitively equal to "arxiv" and a conflicting `doi` containing
"arXiv." resolves to the `eprint` value verbatim, which is also what is
written back onto the entry. -/
theorem c3_eprint_priority (entry : Entry) (ep d : String)
    (hep : entry.eprint = some ep)
    (hpair : hasArxivEprintPair entry = true)
    (hdoi : entry.doi = some d)
    (hconf : pyContains "arXiv." d = true) :
    find_arxiv_id_in_entry entry =
      (some ep, { entry with arxiv_org_id := some ep }) := by
  have hf : find_arxiv_id entry = some ep := by
    unfold find_arxiv_id
    rw [hpair]
    simp [hep]
  unfold find_arxiv_id_in_entry
  rw [hf]

/-- Witness for C3 at a concrete entry. -/
theorem c3_eprint_priority_witness :
    find_arxiv_id_in_entry c3entry =
      (some "2010.00001", { c3entry with arxiv_org_id := some "2010.00001" }) :=
  c3_eprint_priority c3entry "2010.00001" "10.48550/arXiv.1111.2222"
    rfl (by decide) rfl (by decide)

/-- Entry with no eprint pair but both a qualifying doi and a qualifying
url, for C2. -/
def c2entry : Entry :=
  { ID := "c2", doi := some "10.48550/arXiv.2201.00001",
    url := some "https://arxiv.org/abs/9999.11111" }

/-- C2 counterexample: with no arxiv eprint pair, a doi containing "arXiv."
and a url containing "arxiv.org/abs/", the resolver returns the url-derived
identifier "9999.11111", not the doi-derived "2201.00001" the claim
requires: the doi branch of the loop does not `break`, so the url branch
overwrites its result. -/
theorem c2_doi_priority_counterexample :
    find_arxiv_id c2entry = some "9999.11111" ∧
      (some "9999.11111" : Option String) ≠ some "2201.00001" := by
  constructor
  · decide
  · decide

/-- C2 amended: when the entry has no arxiv eprint pair and both the doi
and the url qualify, the resolver returns the identifier taken from the
`url` (the substring after the first "arxiv.org/abs/"); the url source
overrides the doi source. -/
theorem c2_url_overrides_doi (entry : Entry) (d u : String)
    (hpair : hasArxivEprintPair entry = false)
    (hd : entry.doi = some d)
    (hdc : pyContains "arXiv." d = true)
    (hu : entry.url = some u)
    (huc : pyContains "arxiv.org/abs/" u = true) :
    find_arxiv_id entry = some (pySplitAfter "arxiv.org/abs/" u) := by
  unfold find_arxiv_id
  rw [hpair]
  simp [hd, hdc, hu, huc]

/-- Witness for the amended C2 at a concrete entry. -/
theorem c2_url_overrides_doi_witness :
    find_arxiv_id c2entry =
      some (pySplitAfter "arxiv.org/abs/" "https://arxiv.org/abs/9999.11111") :=
  c2_url_overrides_doi c2entry "10.48550/arXiv.2201.00001"
    "https://arxiv.org/abs/9999.11111" rfl rfl (by decide) rfl (by decide)

/-- Entry whose only candidate source is a biorxiv url, for C8. -/
def c8entry : Entry :=
  { ID := "c8",
    url := some "https://www.biorxiv.org/content/early/2018/04/11/299859" }

/-- C8: an entry with no qualifying eprint pair, no doi containing
"arXiv.", and a url that does not contain "arxiv.org/abs/" (the biorxiv
url) resolves to no identifier, and `find_arxiv_id_in_entry` leaves the
entry unchanged (no `arxiv_org_id` is set). -/
theorem c8_biorxiv_rejected (entry : Entry)
    (hpair : hasArxivEprintPair entry = false)
    (hdoi : doiHasArxiv entry = false)
    (hurl : entry.url =
      some "https://www.biorxiv.org/content/early/2018/04/11/299859") :
    find_arxiv_id entry = none ∧ find_arxiv_id_in_entry entry = (none, entry) := by
  have hc : pyContains "arxiv.org/abs/"
      "https://www.biorxiv.org/content/early/2018/04/11/299859" = false := by
    decide
  have hfd : find_arxiv_id entry = none := by
    cases hdd : entry.doi with
    | none => simp [find_arxiv_id, hpair, hurl, hc, hdd]
    | some d =>
      have hdcf : pyContains "arXiv." d = false := by
        unfold doiHasArxiv at hdoi
        rw [hdd] at hdoi
        exact hdoi
      simp [find_arxiv_id, hpair, hurl, hc, hdd, hdcf]
  refine ⟨hfd, ?_⟩
  unfold find_arxiv_id_in_entry
  rw [hfd]

/-- Witness for C8 at a concrete entry. -/
theorem c8_biorxiv_rejected_witness :
    find_arxiv_id c8entry = none ∧
      find_arxiv_id_in_entry c8entry = (none, c8entry) :=
  c8_biorxiv_rejected c8entry rfl rfl rfl

/-- C9: the resolver is idempotent: running `find_arxiv_id_in_entry` (with
`add_to_entry` at its default) on the entry produced by a first run returns
the same identifier and the same entry state; the only effect of the second
run is re-setting `arxiv_org_id` to an identical value. -/
theorem c9_find_arxiv_idempotent (e : Entry) :
    find_arxiv_id_in_entry (find_arxiv_id_in_entry e).2 =
      find_arxiv_id_in_entry e := by
  unfold find_arxiv_id_in_entry
  cases h : find_arxiv_id e with
  | none => simp [h]
  | some v => simp [h, find_arxiv_id_set_id]

/-- The `key` argument of `get_entry_for_citekey`: a single citekey string
or a list of citekeys. -/
inductive CiteKey where
  | one (s : String)
  | many (l : List String)
deriving Repr, DecidableEq

/-- The return value of `get_entry_for_citekey`: either one bare entry (when
exactly one entry matched) or a dict from citekey to entry, modelled as an
insertion-ordered association list. -/
inductive EntryResult where
  | single (e : Entry)
  | multiple (m : List (String × Entry))
deriving Repr, DecidableEq

/-- Python dict assignment `entries[k] = v` on an insertion-ordered
association list: overwrite in place when the key exists, append otherwise. -/
def dictInsert (d : List (String × Entry)) (k : String) (v : Entry) :
    List (String × Entry) :=
  if d.any (fun p => p.1 == k) then
    d.map (fun p => if p.1 == k then (k, v) else p)
  else d ++ [(k, v)]

/-- The selection loop of `get_entry_for_citekey`:
`for e in db.entries: if "ID" in e and e["ID"] in keys: entries[e["ID"]] = e`
(in this model every entry carries an `ID`). -/
def selectEntries (dbEntries : List Entry) (keys : List String) :
    List (String × Entry) :=
  dbEntries.foldl
    (fun d e => if keys.contains e.ID then dictInsert d e.ID e else d) []

/-- The bibtex database: an ordered collection of entries. -/
structure BibDatabase where
  entries : List Entry
deriving Repr, DecidableEq

/-- `get_entry_for_citekey(db, key)`: select the matching entries, run the
identifier resolver on each (eagerly, `add_to_entry=True`), and return a
bare entry when the dict has exactly one element, the dict otherwise. -/
def get_entry_for_citekey (db : BibDatabase) (key : CiteKey) : EntryResult :=
  let keys := match key with | .one s => [s] | .many l => l
  let selected := selectEntries db.entries keys
  let resolved := selected.map fun p => (p.1, (find_arxiv_id_in_entry p.2 true).2)
  match resolved with
  | [p] => EntryResult.single p.2
  | l => EntryResult.multiple l

/-- Every pair in `dictInsert d k v` either has key `k` or was already in
`d`. -/
theorem mem_dictInsert {p : String × Entry} {d : List (String × Entry)}
    {k : String} {v : Entry} (hp : p ∈ dictInsert d k v) : p.1 = k ∨ p ∈ d := by
  unfold dictInsert at hp
  by_cases h : d.any (fun q => q.1 == k)
  · rw [if_pos h] at hp
    obtain ⟨q, hq, hpq⟩ := List.mem_map.mp hp
    by_cases hqk : q.1 == k
    · rw [if_pos hqk] at hpq
      left
      rw [← hpq]
    · rw [if_neg hqk] at hpq
      right
      rw [← hpq]
      exact hq
  · rw [if_neg h] at hp
    rcases List.mem_append.mp hp with h1 | h1
    · right; exact h1
    · left
      rw [List.mem_singleton.mp h1]

/-- If no entry in `es` has `ID = k` and no accumulated pair has key `k`,
the selection fold produces no pair with key `k`. -/
theorem selection_fold_ne (k : String) (keys : List String) :
    ∀ (es : List Entry) (d : List (String × Entry)),
      (∀ p ∈ d, p.1 ≠ k) → (∀ e ∈ es, e.ID ≠ k) →
      ∀ p ∈ es.foldl
        (fun d e => if keys.contains e.ID then dictInsert d e.ID e else d) d,
        p.1 ≠ k := by
  intro es
  induction es with
  | nil => intro d hd _ p hp; exact hd p hp
  | cons e es ih =>
    intro d hd hes p hp
    simp only [List.foldl_cons] at hp
    refine ih _ ?_ (fun x hx => hes x (List.mem_cons_of_mem _ hx)) p hp
    intro q hq
    by_cases hc : keys.contains e.ID
    · rw [if_pos hc] at hq
      rcases mem_dictInsert hq with h1 | h1
      · rw [h1]
        exact hes e (List.mem_cons_self _ _)
      · exact hd q h1
    · rw [if_neg hc] at hq
      exact hd q hq

/-- A key that heads no pair of an association list looks up to `none`. -/
theorem lookup_eq_none_of_ne (k : String) :
    ∀ d : List (String × Entry), (∀ p ∈ d, p.1 ≠ k) → List.lookup k d = none := by
  intro d
  induction d with
  | nil => intro _; rfl
  | cons p ps ih =>
    intro h
    have hne : p.1 ≠ k := h p (List.mem_cons_self _ _)
    have hb : (k == p.1) = false := beq_eq_false_iff_ne.mpr (Ne.symm hne)
    cases p with
    | mk a b =>
      simp only [List.lookup, hb]
      exact ih fun q hq => h q (List.mem_cons_of_mem _ hq)

/-- If no entry has `ID = k`, selecting for the single key `k` yields the
empty dict. -/
theorem selectEntries_single_missing (k : String) :
    ∀ es : List Entry, (∀ e ∈ es, e.ID ≠ k) → selectEntries es [k] = [] := by
  have main : ∀ es : List Entry, (∀ e ∈ es, e.ID ≠ k) →
      es.foldl
        (fun d e => if [k].contains e.ID then dictInsert d e.ID e else d)
        [] = [] := by
    intro es
    induction es with
    | nil => intro _; rfl
    | cons e es ih =>
      intro h
      have hne : e.ID ≠ k := h e (List.mem_cons_self _ _)
      have hc : ([k].contains e.ID) = false := by
        simp [List.contains, beq_eq_false_iff_ne, hne]
      simp only [List.foldl_cons, hc, Bool.false_eq_true, if_false]
      exact ih fun x hx => h x (List.mem_cons_of_mem _ hx)
  intro es h
  exact main es h

/-- C4 counterexample: requesting the citekey "b" from a database holding
only the entry "a" returns normally with the empty mapping — no explicit
missing-entry failure is raised at selection time; the miss surfaces only as
a later lookup failure. -/
theorem c4_missing_key_counterexample :
    get_entry_for_citekey ⟨[{ ID := "a" }]⟩ (CiteKey.one "b") =
      EntryResult.multiple [] := by
  decide

/-- C4 amended: for an identifier matching no entry, `get_entry_for_citekey`
returns normally: with that single identifier it returns the empty mapping,
and for any requested sequence the result dict has no binding for the
identifier — the failure is deferred to a later lookup. -/
theorem c4_missing_key_returns_normally (db : BibDatabase) (k : String)
    (h : ∀ e ∈ db.entries, e.ID ≠ k) :
    get_entry_for_citekey db (CiteKey.one k) = EntryResult.multiple [] ∧
      ∀ keys : List String, List.lookup k (selectEntries db.entries keys) = none := by
  constructor
  · have hempty : selectEntries db.entries [k] = [] :=
      selectEntries_single_missing k db.entries h
    simp [get_entry_for_citekey, hempty]
  · intro keys
    refine lookup_eq_none_of_ne k _ ?_
    exact selection_fold_ne k keys db.entries [] (by intro p hp; cases hp) h

/-- Witness for the amended C4 at a concrete database and key. -/
theorem c4_missing_key_returns_normally_witness :
    get_entry_for_citekey ⟨[{ ID := "a" }]⟩ (CiteKey.one "x") =
        EntryResult.multiple [] ∧
      List.lookup "x" (selectEntries [{ ID := "a" }] ["a", "x"]) = none :=
  ⟨(c4_missing_key_returns_normally ⟨[{ ID := "a" }]⟩ "x" (by decide)).1,
    (c4_missing_key_returns_normally ⟨[{ ID := "a" }]⟩ "x" (by decide)).2 ["a", "x"]⟩

/-- C10: when the selection dict has exactly one element, the call returns
that bare entry (after identifier resolution), not a one-element mapping —
even when the input key was a list. -/
theorem c10_single_match_returns_bare_entry (db : BibDatabase)
    (keys : List String) (k0 : String) (e0 : Entry)
    (h : selectEntries db.entries keys = [(k0, e0)]) :
    get_entry_for_citekey db (CiteKey.many keys) =
      EntryResult.single (find_arxiv_id_in_entry e0 true).2 := by
  simp [get_entry_for_citekey, h]

/-- Witness for C10: a two-entry database queried with a two-key list of
which exactly one matches. -/
theorem c10_single_match_returns_bare_entry_witness :
    selectEntries [{ ID := "a" }, ({ ID := "c" } : Entry)] ["a", "x"] =
        [("a", { ID := "a" })] ∧
      get_entry_for_citekey ⟨[{ ID := "a" }, { ID := "c" }]⟩
          (CiteKey.many ["a", "x"]) =
        EntryResult.single (find_arxiv_id_in_entry { ID := "a" } true).2 :=
  ⟨by decide,
    c10_single_match_returns_bare_entry ⟨[{ ID := "a" }, { ID := "c" }]⟩
      ["a", "x"] "a" { ID := "a" } (by decide)⟩

/-- Configuration flags, with the values set in the script. -/
def show_abstracts : Bool := true

/-- Configuration flag `show_altmetric` (source value). -/
def show_altmetric : Bool := true

/-- Configuration flag `show_arxiv_badge` (source value). -/
def show_arxiv_badge : Bool := true

/-- Configuration flag `use_shieldsio_for_badges` (source value). -/
def use_shieldsio_for_badges : Bool := true

/-- Configuration flag `use_bootstrap_button_for_abstract` (source value). -/
def use_bootstrap_button_for_abstract : Bool := true

/-- `shieldio(left, right, color=None, logo=None, logoColor=None)`: format
the shields.io image url. -/
def shieldio (left right : String)
    (color : Option String := none) (logo : Option String := none)
    (logoColor : Option String := none) : String :=
  let url := "https://img.shields.io/badge/" ++ left ++ "-" ++ right
  let url := match color with | some c => url ++ "-" ++ c | none => url
  match logo with
  | some lg =>
    let url := url ++ "?logo=" ++ lg
    match logoColor with
    | some lc => url ++ "&logoColor=" ++ lc
    | none => url
  | none => url

/-- The call `shieldio(**kwargs)` in `format_badge`: Python raises a
`TypeError` when `kwargs` holds a keyword `shieldio` does not accept (it
accepts only `left`, `right`, `color`, `logo`, `logoColor`, so a present
`desc` or `url` is unexpected) or when `left`/`right` are missing. -/
def shieldioKwargs (b : Badge) : Except String String :=
  if b.desc.isSome || b.url.isSome then
    Except.error "TypeError: shieldio got an unexpected keyword argument"
  else
    match b.left, b.right with
    | some l, some r => Except.ok (shieldio l r b.color b.logo b.logoColor)
    | _, _ => Except.error "TypeError: shieldio missing a required argument"

/-- `format_badge(**kwargs)`.  Both modes read `kwargs["url"]` (KeyError
when absent); plain mode also reads `kwargs["desc"]`.  In shields.io mode
the two-kwarg `desc`/`url` case substitutes the arxiv/github defaults (any
other description contributes an empty image url), and every other kwarg
combination is forwarded to `shieldio(**kwargs)`. -/
def format_badge (b : Badge) : Except String String :=
  match b.url with
  | none => Except.error "KeyError: url"
  | some u =>
    if use_shieldsio_for_badges then do
      let mid ←
        if b.nkwargs == 2 && b.desc.isSome && b.url.isSome then
          match b.desc with
          | some d =>
            if pyLower d == "arxiv" then
              Except.ok (shieldio "arXiv" (pyReplace u "https://arxiv.org/abs/" "")
                (some "b31b1b") none none)
            else if pyLower d == "github" then
              Except.ok (shieldio "" "GitHub" (some "066da5") (some "github") none)
            else Except.ok ""
          | none => Except.ok ""
        else shieldioKwargs b
      Except.ok ("<span class=\"pub_badge\">\n<a class=\"pub_badge_link\"href=\""
        ++ u ++ "\"><img src=\"" ++ mid ++ "\"></img></a>\n</span>\n")
    else
      match b.desc with
      | none => Except.error "KeyError: desc"
      | some d =>
        Except.ok ("<span class=\"pub_badge\">\n[<a class=\"pub_badge_link\"href=\""
          ++ u ++ "\">" ++ d ++ "</a>]\n</span>\n")

/-- A badge record with explicit `left`/`right` next to `desc` and `url`,
as the source comments say callers may pass. -/
def c7badge : Badge :=
  { desc := some "Custom", url := some "https://example.org/x",
    left := some "L", right := some "R" }

/-- C7: evaluating the code at the failing input: a badge supplying
explicit `left` and `right` in addition to `desc` and `url` does not render
an image in shields.io mode — `format_badge` forwards the whole kwargs dict
to `shieldio`, which rejects the `desc`/`url` keywords with a `TypeError`,
contradicting both the claim and the source comment that callers can pass
`left`/`right`/`color`/`logo`. -/
theorem c7_explicit_left_right_type_error :
    format_badge c7badge =
      Except.error "TypeError: shieldio got an unexpected keyword argument" := by
  rfl

/-- The text before the first occurrence of `needle` (the whole list when
`needle` does not occur). -/
def takeBeforeFirst (needle : List Char) : List Char → List Char
  | [] => []
  | c :: cs =>
    if isPrefixOfChars needle (c :: cs) then []
    else c :: takeBeforeFirst needle cs

/-- Python `s.split(sep, 1)`: the part before the first occurrence and,
when the separator occurs, the part after it. -/
def pySplitOnce (sep s : String) : String × Option String :=
  match dropAfterFirst sep.data s.data with
  | some rest => (String.mk (takeBeforeFirst sep.data s.data), some (String.mk rest))
  | none => (s, none)

/-- `cleanup(raw)`: run the external LaTeX-to-text converter (passed in as a
parameter, since `pylatexenc` is an external collaborator), then replace
double quotes by single quotes so double-quoted html attributes stay
intact. -/
def cleanup (latexToText : String → String) (raw : String) : String :=
  pyReplace (latexToText raw) "\"" "\x27"

/-- Models `bibtexparser.customization.getnames` (external library) for one
name, restricted to names without the special von/jr keyword tokens that
function treats specially: tidy the name into "Last, First ..." form. -/
def getnameOne (namestring : String) : String :=
  match pySplitOnce "," namestring with
  | (before, some rest) =>
    let last := pyStrip before
    let firsts := (pySplitWS rest).map pyStrip
    last ++ ", " ++ joinSep " " firsts
  | (_, none) =>
    let toks := pySplitWS namestring
    let last := toks.getLastD ""
    let firsts := toks.dropLast.map fun i => pyStrip (pyReplace i "." ". ")
    last ++ ", " ++ joinSep " " firsts

/-- Models `bibtexparser.customization.getnames` (external library): strip
each name, drop empty ones, tidy the rest. -/
def getnames (names : List String) : List String :=
  ((names.map pyStrip).filter fun n => n.length != 0).map getnameOne

/-- Models `bibtexparser.customization.author` (external library): replace
newlines by spaces, split the author field on " and ", strip the pieces and
tidy them via `getnames`. -/
def btxc_author (s : String) : List String :=
  getnames ((pySplitAll " and " (pyReplace s "\n" " ")).map pyStrip)

/-- Does the word start with a lowercase letter? (von-particle test). -/
def startsLower (s : String) : Bool :=
  match s.data with
  | [] => false
  | c :: _ => c.isLower

/-- The four components `splitname` produces. -/
structure NameParts where
  first : List String
  von : List String
  last : List String
  jr : List String
deriving Repr, DecidableEq

/-- Models `bibtexparser.customization.splitname` (external library) for
the one-comma "von Last, First" form without jr parts: the words after the
comma are the first names, a leading run of lowercase words before the
comma is the von particle (the final pre-comma word always belongs to the
last name), the remaining pre-comma words are the last name. -/
def splitname (name : String) : NameParts :=
  match pySplitOnce "," name with
  | (before, some rest) =>
    let preToks := pySplitWS (pyStrip before)
    let firstToks := pySplitWS (pyStrip rest)
    let von := preToks.dropLast.takeWhile startsLower
    { first := firstToks, von := von, last := preToks.drop von.length, jr := [] }
  | (_, none) =>
    let toks := pySplitWS name
    { first := toks.dropLast, von := [],
      last := match toks.getLast? with | some l => [l] | none => [], jr := [] }

/-- One step of the first-name abbreviation loop of `format_authors`: a
token longer than two characters becomes its first letter plus a period; a
short token ending in a period/colon/semicolon likewise; any other short
token only triggers a logged warning and contributes nothing — but reading
`f[1]` on a token shorter than two characters raises an IndexError. -/
def abbrevStep (first f : String) : Except String String :=
  if f.length > 2 then Except.ok (first ++ String.mk (f.data.take 1) ++ ".")
  else
    match f.data[1]? with
    | some c =>
      if c == '.' || c == ':' || c == ';' then
        Except.ok (first ++ String.mk (f.data.take 1) ++ ".")
      else Except.ok first
    | none => Except.error "IndexError: string index out of range"

/-- The per-name body of the loop in `format_authors`: abbreviate (or join)
the first names, then stitch first/von/last/jr together with the script's
capitalization rules. -/
def formatOneName (abbreviate_first : Bool) (name : String) :
    Except String String := do
  let split := splitname name
  let first ←
    if !abbreviate_first then Except.ok (joinSep " " split.first)
    else split.first.foldlM abbrevStep ""
  let last := joinSep " " split.last
  let von := joinSep " " split.von
  let jr := joinSep " " split.jr
  let temp := pyTitle first
  let temp := if von.length > 0 then temp ++ " " ++ pyLower von else temp
  let temp := temp ++ " " ++ last
  let temp := if jr.length > 0 then temp ++ " " ++ pyLower jr else temp
  Except.ok temp

/-- The final join of `format_authors`: "et al." beyond the threshold, the
single author alone, otherwise the authors comma-joined with a final "and";
`authors[0]` on an empty list raises an IndexError. -/
def joinAuthors (et_al_at : Nat) (authors : List String) :
    Except String String :=
  match authors with
  | [] => Except.error "IndexError: list index out of range"
  | a0 :: _ =>
    if authors.length > et_al_at then Except.ok (a0 ++ " et al.")
    else if authors.length = 1 then Except.ok a0
    else
      let res := ((authors.drop 1).dropLast).foldl (fun r a => r ++ ", " ++ a) a0
      Except.ok (res ++ " and " ++ authors.getLastD "")

/-- `format_authors(entry, abbreviate_first=True, et_al_at=1000)`.  The
author field is split into names by the external library model, each name
is formatted, and the list is joined into one line and cleaned.  A missing
or empty author field raises (the library helper deletes an empty field and
the subsequent `r["author"]` read fails). -/
def format_authors (latexToText : String → String) (entry : Entry)
    (abbreviate_first : Bool := true) (et_al_at : Nat := 1000) :
    Except String String := do
  match entry.author with
  | none => Except.error "KeyError: author"
  | some a =>
    if a.length = 0 then Except.error "KeyError: author"
    else do
      let names := btxc_author a
      let authors ← names.mapM (formatOneName abbreviate_first)
      let res ← joinAuthors et_al_at authors
      Except.ok (cleanup latexToText res)

/-- Folding the comma-append loop over the middle authors is an
intercalation. -/
theorem foldl_comma_join (a0 : String) (mid : List String) :
    mid.foldl (fun r a => r ++ ", " ++ a) a0 = joinSep ", " (a0 :: mid) := by
  induction mid generalizing a0 with
  | nil => rfl
  | cons m ms ih =>
    rw [List.foldl_cons, ih]
    cases ms with
    | nil => rfl
    | cons n t => simp [joinSep, String.append_assoc]

/-- Single-author entry of the claim. -/
def c5entry1 : Entry := { ID := "c5a", author := some "Spitzner, Franz Paul" }

/-- Two-author entry of the claim. -/
def c5entry2 : Entry :=
  { ID := "c5b", author := some "Smith, John and Doe, Jane" }

/-- C5 counterexample: with abbreviation enabled the script abbreviates
every given-name token, so ["Spitzner, Franz Paul"] formats to
"F.P. Spitzner", not the "F. Paul Spitzner" the claim states. -/
theorem c5_author_examples_counterexample :
    format_authors (fun s => s) c5entry1 = Except.ok "F.P. Spitzner" ∧
      "F.P. Spitzner" ≠ "F. Paul Spitzner" :=
  ⟨rfl, by decide⟩

/-- C5 amended: ["Spitzner, Franz Paul"] formats to "F.P. Spitzner" (every
given-name token is abbreviated); ["Smith, John", "Doe, Jane"] formats to
"J. Smith and J. Doe"; and any list of three or more formatted authors, up
to the et-al threshold (default 1000), is comma-joined with a final "and"
before the last name. -/
theorem c5_author_examples_amended :
    format_authors (fun s => s) c5entry1 = Except.ok "F.P. Spitzner" ∧
      format_authors (fun s => s) c5entry2 = Except.ok "J. Smith and J. Doe" ∧
      ∀ authors : List String, 3 ≤ authors.length → authors.length ≤ 1000 →
        joinAuthors 1000 authors =
          Except.ok (joinSep ", " authors.dropLast ++ " and " ++
            authors.getLastD "") := by
  refine ⟨rfl, rfl, ?_⟩
  intro authors h3 hle
  match authors, h3 with
  | a0 :: a1 :: a2 :: rest, _ =>
    have h1 : ¬ ((a0 :: a1 :: a2 :: rest).length > 1000) := by
      simp only [List.length_cons] at hle ⊢
      omega
    have h2 : ¬ ((a0 :: a1 :: a2 :: rest).length = 1) := by
      simp only [List.length_cons]
      omega
    simp only [joinAuthors]
    rw [if_neg h1, if_neg h2]
    simp only [foldl_comma_join]
    rfl

/-- Witness for the amended C5: the general join clause applied at a
concrete three-author list. -/
theorem c5_author_examples_amended_witness :
    format_authors (fun s => s) c5entry2 = Except.ok "J. Smith and J. Doe" ∧
      joinAuthors 1000 ["A. One", "B. Two", "C. Three"] =
        Except.ok (joinSep ", " (["A. One", "B. Two", "C. Three"] :
            List String).dropLast ++ " and " ++
          (["A. One", "B. Two", "C. Three"] : List String).getLastD "") :=
  ⟨c5_author_examples_amended.2.1,
    c5_author_examples_amended.2.2 ["A. One", "B. Two", "C. Three"]
      (by decide) (by decide)⟩

/-- Entry whose author has a single-character given-name token. -/
def c6entry : Entry := { ID := "c6", author := some "Smith, J" }

/-- C6: evaluating the code at the failing input: on the author
"Smith, J" the abbreviation heuristic reads `f[1]` of the one-character
token "J" unguarded, so `format_authors` raises an IndexError instead of
the warn-and-proceed behavior the claim (and the error-handling taxonomy)
require. -/
theorem c6_single_char_token_raises :
    format_authors (fun s => s) c6entry =
      Except.error "IndexError: string index out of range" := rfl

/-- The author block of `entry_to_html`: emitted only when the entry has a
non-empty `author` field. -/
def authorFrag (latexToText : String → String) (entry : Entry) :
    Except String String :=
  match entry.author with
  | some a =>
    if a.length > 0 then do
      let s ← format_authors latexToText entry
      Except.ok ("<div class=\"pub_author\">\n" ++ s ++ "\n</div>\n")
    else Except.ok ""
  | none => Except.ok ""

/-- The title block of `entry_to_html`: emitted only for a non-empty
`title`; rendered as a link exactly when a non-empty `url` is present. -/
def titleFrag (latexToText : String → String) (entry : Entry) : String :=
  match entry.title with
  | none => ""
  | some t =>
    if t.length > 0 then
      let url_is_okay : Bool :=
        match entry.url with
        | some u => decide (u.length > 0)
        | none => false
      let tag := if url_is_okay then "a" else "div"
      "<" ++ tag ++ " class=\"pub_title\"\n"
        ++ (if url_is_okay then "href=\"" ++ entry.url.getD "" ++ "\"\n" else "")
        ++ ">\n" ++ cleanup latexToText t ++ "\n</" ++ tag ++ ">\n"
    else ""

/-- The journal/volume/pages span: emitted only for a non-empty `journal`;
volume and pages are appended only when themselves present and non-empty. -/
def journalFrag (entry : Entry) : String :=
  match entry.journal with
  | none => ""
  | some j =>
    if j.length > 0 then
      "<span class=\"pub_journal\">\n" ++ j
        ++ (match entry.volume with
            | some v => if v.length > 0 then " " ++ v else ""
            | none => "")
        ++ (match entry.pages with
            | some p => if p.length > 0 then ", " ++ p else ""
            | none => "")
        ++ "\n</span>\n"
    else ""

/-- The year span: emitted only for a non-empty `year`. -/
def yearFrag (entry : Entry) : String :=
  match entry.year with
  | none => ""
  | some y =>
    if y.length > 0 then
      "<span class=\"pub_year\">\n(" ++ y ++ ")\n</span>\n"
    else ""

/-- The abstract toggle control: emitted only when abstracts are enabled
and the entry has a non-empty `abstract`; the styling variant follows the
bootstrap flag. -/
def abstractToggleFrag (entry : Entry) : String :=
  if show_abstracts then
    match entry.abstract with
    | some ab =>
      if ab.length > 0 then
        if use_bootstrap_button_for_abstract then
          "<span class=\"pub_badge\">\n<span type=\"button\" class=\"btn\" "
            ++ "data-toggle=\"collapse\" aria-expanded=\"false\" "
            ++ "data-target=\"#abstract_" ++ entry.ID ++ "\">"
            ++ "Toggle abstract</span></span>\n"
        else
          "<span class=\"pub_badge\">\n[<span class=\"fake_a pub_badge_link\" "
            ++ "data-toggle=\"collapse\" aria-expanded=\"false\" "
            ++ "data-target=\"#abstract_" ++ entry.ID ++ "\">"
            ++ "Abstract</span>]\n</span>\n"
      else ""
    | none => ""
  else ""

/-- The automatically appended arXiv badge: emitted when enabled and an
`arxiv_org_id` was resolved onto the entry. -/
def arxivBadgeFrag (entry : Entry) : Except String String :=
  if show_arxiv_badge then
    match entry.arxiv_org_id with
    | some i =>
      format_badge
        { desc := some "arXiv", url := some ("https://arxiv.org/abs/" ++ i) }
    | none => Except.ok ""
  else Except.ok ""

/-- One caller-supplied badge: the script asserts that `url` and `desc` are
present before delegating to `format_badge`. -/
def badgeItem (b : Badge) : Except String String :=
  if b.url.isSome && b.desc.isSome then format_badge b
  else Except.error "AssertionError"

/-- The caller-supplied badges: emitted only for a present, non-empty
`badges` list. -/
def badgesFrag (entry : Entry) : Except String String :=
  match entry.badges with
  | some bs =>
    if bs.length > 0 then do
      let parts ← bs.mapM badgeItem
      Except.ok (joinSep "" parts)
    else Except.ok ""
  | none => Except.ok ""

/-- The altmetric marker: emitted when enabled and the entry has an
`arxiv_org_id` or a `doi` key — note the doi side is gated on key presence
only, not on non-emptiness.  The arXiv id is preferred as the metrics key. -/
def altmetricFrag (entry : Entry) : String :=
  if show_altmetric && (entry.arxiv_org_id.isSome || entry.doi.isSome) then
    "<span data-badge-type=\"2\" data-hide-no-mentions=\"true\" class=\"altmetric-embed\" "
      ++ (match entry.arxiv_org_id with
          | some a => "data-arxiv-id=\"" ++ a ++ "\""
          | none =>
            match entry.doi with
            | some d => "data-doi=\"" ++ d ++ "\""
            | none => "")
      ++ " ></span>\n"
  else ""

/-- The collapsed abstract block at the end of the list item: emitted only
when abstracts are enabled and the entry has a non-empty `abstract`. -/
def abstractDivFrag (latexToText : String → String) (entry : Entry) : String :=
  if show_abstracts then
    match entry.abstract with
    | some ab =>
      if ab.length > 0 then
        "<div class=\"collapse\" id=\"abstract_" ++ entry.ID ++ "\">\n"
          ++ "<div class=\"pub_abstract\">" ++ cleanup latexToText ab
          ++ "</div>\n</div>"
      else ""
    | none => ""
  else ""

/-- `entry_to_html(entry)`: the list-item fragment, assembled from the
blocks above in the source's order. -/
def entryToHtml (latexToText : String → String) (entry : Entry) :
    Except String String := do
  let a ← authorFrag latexToText entry
  let arxivB ← arxivBadgeFrag entry
  let otherB ← badgesFrag entry
  Except.ok ("<li>\n" ++ a ++ titleFrag latexToText entry
    ++ "<div class=\"pub_journal_group\">\n"
    ++ journalFrag entry ++ yearFrag entry
    ++ "<br class=\"d-block d-lg-block\">"
    ++ abstractToggleFrag entry ++ arxivB ++ otherB ++ altmetricFrag entry
    ++ "</div>\n" ++ abstractDivFrag latexToText entry ++ "</li>\n\n")

/-- Entry whose only field besides `ID` is a present-but-empty doi. -/
def c1entry : Entry := { ID := "c1", doi := some "" }

/-- C1 counterexample: an entry whose `doi` is present but empty still gets
the altmetric marker (with `data-doi=""`) in its rendered fragment — the
altmetric block is gated on doi key presence only, so emptiness does not
suppress this trace of the doi field, contradicting the uniform
absence-or-emptiness gating the claim states. -/
theorem c1_presence_gating_counterexample :
    c1entry.doi = some "" ∧
      entryToHtml (fun s => s) c1entry =
        Except.ok ("<li>\n<div class=\"pub_journal_group\">\n<br class=\"d-block d-lg-block\">"
          ++ "<span data-badge-type=\"2\" data-hide-no-mentions=\"true\" class=\"altmetric-embed\" "
          ++ "data-doi=\"\" ></span>\n</div>\n</li>\n\n") :=
  ⟨rfl, rfl⟩

/-- C1 amended: presence-gating holds independently per field, uniformly
for absence and emptiness, for `author`, `title`, `url`, `journal`,
`volume`, `pages`, `year`, `abstract` and `badges`: an absent or empty
field leaves no trace of its markup in the fragment, and renders exactly as
if the field were absent.  For `doi` the altmetric marker is gated on key
presence only: an absent doi (with no resolved arXiv id) leaves no marker,
but a present-and-empty doi still emits one. -/
theorem c1_presence_gating_amended (ltx : String → String) (e : Entry) :
    ((e.author = none ∨ e.author = some "") → authorFrag ltx e = Except.ok "" ∧
      entryToHtml ltx e = entryToHtml ltx { e with author := none }) ∧
    ((e.title = none ∨ e.title = some "") → titleFrag ltx e = "" ∧
      entryToHtml ltx e = entryToHtml ltx { e with title := none }) ∧
    ((e.url = none ∨ e.url = some "") →
      titleFrag ltx e = titleFrag ltx { e with url := none } ∧
      entryToHtml ltx e = entryToHtml ltx { e with url := none }) ∧
    ((e.journal = none ∨ e.journal = some "") → journalFrag e = "" ∧
      entryToHtml ltx e = entryToHtml ltx { e with journal := none }) ∧
    ((e.volume = none ∨ e.volume = some "") →
      journalFrag e = journalFrag { e with volume := none } ∧
      entryToHtml ltx e = entryToHtml ltx { e with volume := none }) ∧
    ((e.pages = none ∨ e.pages = some "") →
      journalFrag e = journalFrag { e with pages := none } ∧
      entryToHtml ltx e = entryToHtml ltx { e with pages := none }) ∧
    ((e.year = none ∨ e.year = some "") → yearFrag e = "" ∧
      entryToHtml ltx e = entryToHtml ltx { e with year := none }) ∧
    ((e.abstract = none ∨ e.abstract = some "") →
      abstractToggleFrag e = "" ∧ abstractDivFrag ltx e = "" ∧
      entryToHtml ltx e = entryToHtml ltx { e with abstract := none }) ∧
    ((e.badges = none ∨ e.badges = some []) → badgesFrag e = Except.ok "" ∧
      entryToHtml ltx e = entryToHtml ltx { e with badges := none }) ∧
    ((e.doi = none ∧ e.arxiv_org_id = none) → altmetricFrag e = "") ∧
    ((e.doi = some "" ∧ e.arxiv_org_id = none) → altmetricFrag e ≠ "") := by
  obtain ⟨ID, author, title, url, journal, volume, pages, year, abstract,
    doi, eprint, eprinttype, badges, arxiv⟩ := e
  refine ⟨?_, ?_, ?_, ?_, ?_, ?_, ?_, ?_, ?_, ?_, ?_⟩
  · rintro (h | h) <;> subst h <;> exact ⟨rfl, rfl⟩
  · rintro (h | h) <;> subst h <;> exact ⟨rfl, rfl⟩
  · rintro (h | h) <;> subst h <;> exact ⟨rfl, rfl⟩
  · rintro (h | h) <;> subst h <;> exact ⟨rfl, rfl⟩
  · rintro (h | h) <;> subst h <;> exact ⟨rfl, rfl⟩
  · rintro (h | h) <;> subst h <;> exact ⟨rfl, rfl⟩
  · rintro (h | h) <;> subst h <;> exact ⟨rfl, rfl⟩
  · rintro (h | h) <;> subst h <;> exact ⟨rfl, rfl, rfl⟩
  · rintro (h | h) <;> subst h <;> exact ⟨rfl, rfl⟩
  · rintro ⟨h1, h2⟩; subst h1; subst h2; rfl
  · rintro ⟨h1, h2⟩
    subst h1
    subst h2
    show ("<span data-badge-type=\"2\" data-hide-no-mentions=\"true\" class=\"altmetric-embed\" data-doi=\"\" ></span>\n" : String) ≠ ""
    decide

/-- All-optional-fields-absent entry for the C1 witness. -/
def c1wEntry : Entry := { ID := "cw" }

/-- Witness for the amended C1: at an entry with every optional field
absent, each gated block is empty. -/
theorem c1_presence_gating_amended_witness :
    authorFrag (fun s => s) c1wEntry = Except.ok "" ∧
      titleFrag (fun s => s) c1wEntry = "" ∧
      journalFrag c1wEntry = "" ∧
      yearFrag c1wEntry = "" ∧
      abstractToggleFrag c1wEntry = "" ∧
      abstractDivFrag (fun s => s) c1wEntry = "" ∧
      badgesFrag c1wEntry = Except.ok "" ∧
      altmetricFrag c1wEntry = "" := by
  have H := c1_presence_gating_amended (fun s => s) c1wEntry
  exact ⟨(H.1 (Or.inl rfl)).1,
    (H.2.1 (Or.inl rfl)).1,
    (H.2.2.2.1 (Or.inl rfl)).1,
    (H.2.2.2.2.2.2.1 (Or.inl rfl)).1,
    (H.2.2.2.2.2.2.2.1 (Or.inl rfl)).1,
    (H.2.2.2.2.2.2.2.1 (Or.inl rfl)).2.1,
    (H.2.2.2.2.2.2.2.2.1 (Or.inl rfl)).1,
    H.2.2.2.2.2.2.2.2.2.1 ⟨rfl, rfl⟩⟩

end BibtexToHtml
